import Mathlib

/-!
Verification of the optimistic-mutation / rollback hooks of the claims
application.

The definitions below are shallow embeddings of the TanStack-Query mutation
hooks in src/lib/hooks/useClaims.ts, src/lib/hooks/useItems.ts and
src/lib/r2.ts.  Each onMutate / onError / onSuccess / onSettled handler
becomes a pure function on the cache value stored at the query key the
handler touches, and every cache-store or notification operation the handler
performs is additionally recorded, in source order, in an event trace.
Ambient effects (Date.now(), Math.random(), URL.createObjectURL, fetch) are
passed in as explicit parameters.
-/

namespace ClaimsApp

/-- Query keys are lists of path segments, exactly as the hooks build them
(for example ["claims", claimId]). -/
abbrev QueryKey := List String

/-- Cache-store and notification operations performed by the hook bodies,
recorded in the order the source performs them. -/
inductive Event where
  | cancelQueries (key : QueryKey)
  | getQueryData (key : QueryKey)
  | setQueryData (key : QueryKey)
  | notifyErrorCall (msg : String)
  | notifySuccessCall (msg : String)
  | revokeObjectURL (url : String)
deriving DecidableEq

/-- Claim status enum of the Prisma schema; useCreateClaim builds its
temporary claim with status PENDING. -/
inductive ClaimStatus where
  | PENDING
  | UNDER_REVIEW
  | APPROVED
  | REJECTED
  | CLOSED
deriving DecidableEq

/-- Claimant summary embedded in the API responses. -/
structure Claimant where
  id : String
  name : Option String
  email : String
deriving DecidableEq

/-- Entry shape of the cache at key ["claims"]: ClaimWithCount from
useClaims.ts (a claim, its claimant, and its item count). -/
structure ClaimWithCount where
  id : String
  title : String
  description : Option String
  amount : Option Int
  status : ClaimStatus
  claimNumber : String
  customer : Option String
  adjustorName : Option String
  adjustorPhone : Option String
  adjustorEmail : Option String
  claimantName : Option String
  claimantPhone : Option String
  claimantEmail : Option String
  claimantAddress : Option String
  createdAt : Nat
  updatedAt : Nat
  claimantId : String
  claimant : Claimant
  countItems : Nat
deriving DecidableEq

/-- Input of useCreateClaim (CreateClaimInput in useClaims.ts); the optional
fields model the optional string properties. -/
structure CreateClaimInput where
  title : String
  customer : Option String := none
  adjustorName : Option String := none
  adjustorPhone : Option String := none
  adjustorEmail : Option String := none
  claimantName : Option String := none
  claimantPhone : Option String := none
  claimantEmail : Option String := none
  claimantAddress : Option String := none
deriving DecidableEq

/-- JavaScript value-or-null coercion `x || null` on an optional string: an
absent value and the empty string (falsy) both collapse to null. -/
def orNull : Option String → Option String
  | none => none
  | some s => if s = "" then none else some s

/-- Attachment record as stored in the claim-detail cache (the Prisma
Attachment shape that useAddAttachments writes into the cache). -/
structure Attachment where
  id : String
  itemId : String
  filename : String
  url : String
  thumbnailUrl : Option String
  mimeType : String
  size : Nat
  width : Option Nat
  height : Option Nat
  publicId : String
  version : Option String
  format : Option String
  createdAt : Nat
  updatedAt : Nat
deriving DecidableEq

/-- Item together with its attachments (ItemWithAttachments in
useItems.ts). -/
structure ItemWithAttachments where
  id : String
  claimId : String
  title : String
  description : String
  order : Int
  createdAt : Nat
  updatedAt : Nat
  attachments : List Attachment
deriving DecidableEq

/-- Entry shape of the cache at key ["claims", claimId]: ClaimWithItems from
useClaims.ts (a claim, its claimant, and its items with attachments). -/
structure ClaimWithItems where
  id : String
  title : String
  description : Option String
  amount : Option Int
  status : ClaimStatus
  claimNumber : String
  customer : Option String
  adjustorName : Option String
  adjustorPhone : Option String
  adjustorEmail : Option String
  claimantName : Option String
  claimantPhone : Option String
  claimantEmail : Option String
  claimantAddress : Option String
  createdAt : Nat
  updatedAt : Nat
  claimantId : String
  claimant : Claimant
  items : List ItemWithAttachments
deriving DecidableEq

/-- Semantics of queryClient.setQueryData with a functional updater: the
updater receives the previous value (undefined when nothing is cached); when
the updater returns undefined the cache entry is left untouched, otherwise
the returned value replaces the entry. -/
def setQueryDataWith {α : Type} (updater : Option α → Option α)
    (cache : Option α) : Option α :=
  match updater cache with
  | none => cache
  | some v => some v

/-! ### useCreateClaim (src/lib/hooks/useClaims.ts) -/

/-- Temporary claim that useCreateClaim.onMutate synthesizes from the input;
now stands for Date.now(). -/
def mkTempClaim (now : Nat) (data : CreateClaimInput) : ClaimWithCount where
  id := "temp-" ++ toString now
  title := data.title
  description := none
  amount := none
  status := ClaimStatus.PENDING
  claimNumber := "TEMP-" ++ toString now
  customer := orNull data.customer
  adjustorName := orNull data.adjustorName
  adjustorPhone := orNull data.adjustorPhone
  adjustorEmail := orNull data.adjustorEmail
  claimantName := orNull data.claimantName
  claimantPhone := orNull data.claimantPhone
  claimantEmail := orNull data.claimantEmail
  claimantAddress := orNull data.claimantAddress
  createdAt := now
  updatedAt := now
  claimantId := "temp"
  claimant := { id := "temp", name := some "Loading...", email := "" }
  countItems := 0

/-- Context returned by useCreateClaim.onMutate. -/
structure CreateClaimCtx where
  previousClaims : Option (List ClaimWithCount)
  tempClaim : ClaimWithCount
deriving DecidableEq

/-- useCreateClaim.onMutate: cancel outgoing refetches for ["claims"],
snapshot the current value, prepend the temporary claim. -/
def createClaimOnMutate (now : Nat) (data : CreateClaimInput)
    (cache : Option (List ClaimWithCount)) :
    Option (List ClaimWithCount) × CreateClaimCtx × List Event :=
  let previousClaims := cache
  let tempClaim := mkTempClaim now data
  let cache1 := setQueryDataWith
    (fun old => some (tempClaim :: old.getD [])) cache
  (cache1, { previousClaims := previousClaims, tempClaim := tempClaim },
    [Event.cancelQueries ["claims"], Event.getQueryData ["claims"],
     Event.setQueryData ["claims"]])

/-- useCreateClaim.onError: restore the snapshot, but only when a snapshot
value was captured (the context guard in the source). -/
def createClaimOnError (ctx : CreateClaimCtx)
    (cache : Option (List ClaimWithCount)) :
    Option (List ClaimWithCount) × List Event :=
  match ctx.previousClaims with
  | some prev => (some prev, [Event.setQueryData ["claims"]])
  | none => (cache, [])

/-- useCreateClaim.onSuccess: replace the entry whose id equals the context's
temporary claim id with the server-returned claim. -/
def createClaimOnSuccess (newClaim : ClaimWithCount) (ctx : CreateClaimCtx)
    (cache : Option (List ClaimWithCount)) :
    Option (List ClaimWithCount) × List Event :=
  (setQueryDataWith
    (fun old =>
      match old with
      | none => some [newClaim]
      | some old =>
          some (old.map fun claim =>
            if claim.id = ctx.tempClaim.id then newClaim else claim))
    cache,
   [Event.setQueryData ["claims"]])

/-- Failed useCreateClaim invocation: onMutate runs, execute rejects,
onError runs.  Returns the settled cache and the full event trace. -/
def createClaimSettleError (now : Nat) (data : CreateClaimInput)
    (cache : Option (List ClaimWithCount)) :
    Option (List ClaimWithCount) × List Event :=
  let r1 := createClaimOnMutate now data cache
  let r2 := createClaimOnError r1.2.1 r1.1
  (r2.1, r1.2.2 ++ r2.2)

/-- Successful useCreateClaim invocation: onMutate runs, execute resolves
with newClaim, onSuccess runs. -/
def createClaimSettleSuccess (now : Nat) (data : CreateClaimInput)
    (newClaim : ClaimWithCount) (cache : Option (List ClaimWithCount)) :
    Option (List ClaimWithCount) × List Event :=
  let r1 := createClaimOnMutate now data cache
  let r2 := createClaimOnSuccess newClaim r1.2.1 r1.1
  (r2.1, r1.2.2 ++ r2.2)

/-! ### useUpdateItem (src/lib/hooks/useItems.ts) -/

/-- Input of useUpdateItem (UpdateItemData in useItems.ts). -/
structure UpdateItemData where
  claimId : String
  id : String
  title : String
  description : String
deriving DecidableEq

/-- Context returned by useUpdateItem.onMutate. -/
structure UpdateItemCtx where
  previousClaim : Option ClaimWithItems
deriving DecidableEq

/-- useUpdateItem.onMutate: cancel outgoing queries for
["claims", claimId], snapshot, then rewrite the matching item's title and
description in place (the updater returns undefined when nothing is
cached, leaving the cache untouched). -/
def updateItemOnMutate (data : UpdateItemData) (cache : Option ClaimWithItems) :
    Option ClaimWithItems × UpdateItemCtx × List Event :=
  let previousClaim := cache
  let cache1 := setQueryDataWith
    (fun old =>
      match old with
      | none => none
      | some old =>
          some { old with
            items := old.items.map fun item =>
              if item.id = data.id then
                { item with title := data.title,
                            description := data.description }
              else item })
    cache
  (cache1, { previousClaim := previousClaim },
    [Event.cancelQueries ["claims", data.claimId],
     Event.getQueryData ["claims", data.claimId],
     Event.setQueryData ["claims", data.claimId]])

/-- useUpdateItem.onError: restore the snapshot when one was captured; the
source contains no notification call. -/
def updateItemOnError (data : UpdateItemData) (ctx : UpdateItemCtx)
    (cache : Option ClaimWithItems) :
    Option ClaimWithItems × List Event :=
  match ctx.previousClaim with
  | some prev => (some prev, [Event.setQueryData ["claims", data.claimId]])
  | none => (cache, [])

/-- Failed useUpdateItem invocation: onMutate runs, execute rejects, onError
runs. -/
def updateItemSettleError (data : UpdateItemData)
    (cache : Option ClaimWithItems) :
    Option ClaimWithItems × List Event :=
  let r1 := updateItemOnMutate data cache
  let r2 := updateItemOnError data r1.2.1 r1.1
  (r2.1, r1.2.2 ++ r2.2)

/-- JavaScript String.prototype.startsWith, evaluated on the character
sequences of the strings. -/
def strStartsWith (s p : String) : Bool :=
  p.data.isPrefixOf s.data

/-- JavaScript String.prototype.includes: some tail of s starts with p. -/
def strIncludes (s p : String) : Bool :=
  s.data.tails.any (fun t => p.data.isPrefixOf t)

/-! ### useCreateItem (src/lib/hooks/useItems.ts) -/

/-- Input of useCreateItem (CreateItemData in useItems.ts). -/
structure CreateItemData where
  claimId : String
  title : String
  description : String
  order : Option Int := none
deriving DecidableEq

/-- useCreateItem defines no onMutate (the source comment: no optimistic
update, the UI uses a local draft card pattern), so nothing runs against the
cache before the network call: the pre-execute phase leaves the cache
untouched and performs no cache operations. -/
def createItemPreExecute (_data : CreateItemData)
    (cache : Option ClaimWithItems) : Option ClaimWithItems × List Event :=
  (cache, [])

/-- useCreateItem.onSuccess: prepend the server-returned item to the cached
claim's items; an undefined cache value is returned unchanged by the
updater. -/
def createItemOnSuccess (newItem : ItemWithAttachments)
    (vars : CreateItemData) (cache : Option ClaimWithItems) :
    Option ClaimWithItems × List Event :=
  (setQueryDataWith
    (fun old =>
      match old with
      | none => none
      | some old => some { old with items := newItem :: old.items })
    cache,
   [Event.setQueryData ["claims", vars.claimId]])

/-! ### useReorderItems (src/lib/hooks/useItems.ts) -/

/-- One entry of the reorder payload: an item id and its new order. -/
structure ReorderEntry where
  id : String
  order : Int
deriving DecidableEq

/-- Input of useReorderItems (ReorderItemsData in useItems.ts). -/
structure ReorderItemsData where
  claimId : String
  items : List ReorderEntry
deriving DecidableEq

/-- Lookup in the JavaScript Map built by
new Map(data.items.map(i => [i.id, i.order])): insertion in list order with
later entries overwriting earlier ones, so get returns the value of the last
entry with the given id. -/
def orderMapGet (entries : List ReorderEntry) (id : String) : Option Int :=
  (entries.reverse.find? (fun e => e.id == id)).map (fun e => e.order)

/-- Per-item body of the optimistic reorder:
{ ...item, order: orderMap.get(item.id) ?? item.order }. -/
def reorderUpdate (entries : List ReorderEntry)
    (item : ItemWithAttachments) : ItemWithAttachments :=
  { item with order := (orderMapGet entries item.id).getD item.order }

instance : IsTotal ItemWithAttachments (fun a b => a.order ≤ b.order) :=
  ⟨fun a b => le_total a.order b.order⟩

instance : IsTrans ItemWithAttachments (fun a b => a.order ≤ b.order) :=
  ⟨fun _ _ _ h h' => le_trans h h'⟩

/-- Optimistic updater of useReorderItems.onMutate: rewrite each item's
order from the order map (keeping the old order when the id is absent) and
sort ascending by order.  Array.prototype.sort with the comparator
(a, b) => a.order - b.order is a stable ascending sort; stable sorting by a
total preorder is unique, so it is embedded as insertion sort. -/
def reorderItemsApply (entries : List ReorderEntry)
    (old : ClaimWithItems) : ClaimWithItems :=
  { old with
    items := List.insertionSort (fun a b => a.order ≤ b.order)
      (old.items.map (reorderUpdate entries)) }

/-- Context returned by the onMutate of useReorderItems (and of
useDeleteItem): just the snapshot. -/
structure PreviousClaimCtx where
  previousClaim : Option ClaimWithItems
deriving DecidableEq

/-- useReorderItems.onMutate: cancel outgoing queries, snapshot, apply the
optimistic reorder (the updater returns undefined when nothing is cached). -/
def reorderItemsOnMutate (data : ReorderItemsData)
    (cache : Option ClaimWithItems) :
    Option ClaimWithItems × PreviousClaimCtx × List Event :=
  let previousClaim := cache
  let cache1 := setQueryDataWith
    (fun old =>
      match old with
      | none => none
      | some old => some (reorderItemsApply data.items old))
    cache
  (cache1, { previousClaim := previousClaim },
    [Event.cancelQueries ["claims", data.claimId],
     Event.getQueryData ["claims", data.claimId],
     Event.setQueryData ["claims", data.claimId]])

/-! ### useAddAttachments (src/lib/r2.ts) -/

/-- Browser File value as the hooks read it: name, MIME type, size. -/
structure JsFile where
  name : String
  type : String
  size : Nat
deriving DecidableEq

/-- Model of URL.createObjectURL: returns a blob: URL for the file. -/
def createObjectURL (file : JsFile) : String :=
  "blob:" ++ file.name

/-- UI-facing attachment shape (the Attachment interface in r2.ts) as
synthesized by useAddAttachments.onMutate. -/
structure UIAttachment where
  id : String
  name : String
  url : String
  thumbnailUrl : Option String
  type : String
  size : Nat
  width : Option Nat
  height : Option Nat
  publicId : String
  format : Option String
  file : Option JsFile
deriving DecidableEq

/-- Input of useAddAttachments (AddAttachmentsData in r2.ts). -/
structure AddAttachmentsData where
  claimId : String
  itemId : String
  files : List JsFile
deriving DecidableEq

/-- Context returned by useAddAttachments.onMutate. -/
structure AddAttachmentsCtx where
  previousClaim : Option ClaimWithItems
  tempAttachments : List UIAttachment
  itemId : String
deriving DecidableEq

/-- Temporary UI attachments synthesized from the selected files; now stands
for Date.now() and rand i for the Math.random() drawn for the i-th file. -/
def mkTempUIAttachments (now : Nat) (rand : Nat → String)
    (data : AddAttachmentsData) : List UIAttachment :=
  data.files.mapIdx fun i file =>
    { id := "temp-" ++ toString now ++ "-" ++ rand i
      name := file.name
      url := createObjectURL file
      thumbnailUrl := none
      type := file.type
      size := file.size
      width := none
      height := none
      publicId := ""
      format := none
      file := some file }

/-- Conversion of a temporary UI attachment back to the Prisma-like cache
shape, as written inline in useAddAttachments.onMutate; now stands for
new Date(). -/
def tempToPrismaShape (now : Nat) (itemId : String)
    (att : UIAttachment) : Attachment :=
  { id := att.id
    itemId := itemId
    filename := att.name
    url := att.url
    thumbnailUrl := att.thumbnailUrl
    mimeType := att.type
    size := att.size
    width := att.width
    height := att.height
    publicId := ""
    version := none
    format := none
    createdAt := now
    updatedAt := now }

/-- useAddAttachments.onMutate: cancel outgoing queries for the claim,
snapshot, synthesize the temporary attachments, append them to the matching
item's attachments. -/
def addAttachmentsOnMutate (now : Nat) (rand : Nat → String)
    (data : AddAttachmentsData) (cache : Option ClaimWithItems) :
    Option ClaimWithItems × AddAttachmentsCtx × List Event :=
  let previousClaim := cache
  let tempAttachments := mkTempUIAttachments now rand data
  let cache1 := setQueryDataWith
    (fun old =>
      match old with
      | none => none
      | some old =>
          some { old with
            items := old.items.map fun item =>
              if item.id = data.itemId then
                { item with
                  attachments := item.attachments ++
                    tempAttachments.map (tempToPrismaShape now data.itemId) }
              else item })
    cache
  (cache1,
   { previousClaim := previousClaim, tempAttachments := tempAttachments,
     itemId := data.itemId },
   [Event.cancelQueries ["claims", data.claimId],
    Event.getQueryData ["claims", data.claimId],
    Event.setQueryData ["claims", data.claimId]])

/-- useAddAttachments.onError: restore the snapshot when one was captured,
then revoke the object URLs of the temporary attachments; the source
contains no notification call. -/
def addAttachmentsOnError (vars : AddAttachmentsData)
    (ctx : AddAttachmentsCtx) (cache : Option ClaimWithItems) :
    Option ClaimWithItems × List Event :=
  let rolled :=
    match ctx.previousClaim with
    | some prev =>
        (some prev, [Event.setQueryData ["claims", vars.claimId]])
    | none => (cache, ([] : List Event))
  (rolled.1,
   rolled.2 ++
     (ctx.tempAttachments.filter (fun att => strStartsWith att.url "blob:")).map
       (fun att => Event.revokeObjectURL att.url))

/-- useAddAttachments.onSuccess: on the matching item drop every attachment
whose id starts with the temp- marker and append the server-returned
attachments, then revoke the object URLs of this invocation's temporary
attachments. -/
def addAttachmentsOnSuccess (result : List Attachment)
    (vars : AddAttachmentsData) (ctx : AddAttachmentsCtx)
    (cache : Option ClaimWithItems) :
    Option ClaimWithItems × List Event :=
  (setQueryDataWith
    (fun old =>
      match old with
      | none => none
      | some old =>
          some { old with
            items := old.items.map fun item =>
              if item.id = vars.itemId then
                { item with
                  attachments :=
                    (item.attachments.filter
                      (fun att => !(strStartsWith att.id "temp-"))) ++ result }
              else item })
    cache,
   [Event.setQueryData ["claims", vars.claimId]] ++
     (ctx.tempAttachments.filter (fun att => strStartsWith att.url "blob:")).map
       (fun att => Event.revokeObjectURL att.url))

/-- Failed useAddAttachments invocation: onMutate runs, execute rejects,
onError runs. -/
def addAttachmentsSettleError (now : Nat) (rand : Nat → String)
    (data : AddAttachmentsData) (cache : Option ClaimWithItems) :
    Option ClaimWithItems × List Event :=
  let r1 := addAttachmentsOnMutate now rand data cache
  let r2 := addAttachmentsOnError data r1.2.1 r1.1
  (r2.1, r1.2.2 ++ r2.2)

/-- Successful useAddAttachments invocation: onMutate runs, execute resolves
with the server-returned attachments, onSuccess runs. -/
def addAttachmentsSettleSuccess (now : Nat) (rand : Nat → String)
    (data : AddAttachmentsData) (result : List Attachment)
    (cache : Option ClaimWithItems) :
    Option ClaimWithItems × List Event :=
  let r1 := addAttachmentsOnMutate now rand data cache
  let r2 := addAttachmentsOnSuccess result data r1.2.1 r1.1
  (r2.1, r1.2.2 ++ r2.2)

/-! ### uploadFileWithRetry (src/lib/r2.ts) -/

/-- Constant MAX_FILE_SIZE from r2.ts (100MB). -/
def MAX_FILE_SIZE : Nat := 100 * 1024 * 1024

/-- Constant UPLOAD_TIMEOUT from r2.ts (60 seconds, in milliseconds). -/
def UPLOAD_TIMEOUT : Nat := 60000

/-- Constant MAX_RETRIES from r2.ts. -/
def MAX_RETRIES : Nat := 3

/-- Outcome of one fetch inside uploadFileWithRetry: either a response with
an HTTP status, or a thrown Error with a name and a message. -/
inductive FetchOutcome where
  | resp (status : Nat)
  | thrown (name : String) (msg : String)
deriving DecidableEq

/-- Response.ok of the fetch API: status in the 2xx range. -/
def respOk (status : Nat) : Bool :=
  decide (200 ≤ status) && decide (status < 300)

/-- Error classification in the catch block of uploadFileWithRetry. -/
def classifyUploadError (name msg fileName : String) : String :=
  if name = "TimeoutError" || name = "AbortError" then
    "Upload timed out for " ++ fileName
  else if strIncludes msg "Failed to fetch" then
    "Network error - check your connection"
  else msg

/-- Retry loop of uploadFileWithRetry.  The oracle gives the outcome of the
fetch on each attempt number; fuel counts the attempts still allowed, used
the attempts already made.  Returns the settled result (HTTP status of the
accepted response, or the final error message) together with the total
number of fetch attempts issued.  A response that is ok or a client error
(4xx) is returned immediately; a server error (5xx and anything else) and a
thrown error update lastError and are retried until the fuel runs out. -/
def uploadAttemptsGo (oracle : Nat → FetchOutcome) (fileName : String) :
    Nat → Nat → Option String → Except String Nat × Nat
  | 0, used, lastError =>
      (Except.error (lastError.getD
        ("Failed to upload " ++ fileName ++ " after " ++
          toString MAX_RETRIES ++ " attempts")), used)
  | fuel + 1, used, _lastError =>
      let attempt := used + 1
      match oracle attempt with
      | FetchOutcome.resp status =>
          if respOk status || (decide (400 ≤ status) && decide (status < 500)) then
            (Except.ok status, attempt)
          else
            uploadAttemptsGo oracle fileName fuel attempt
              (some ("Server error (" ++ toString status ++ ")"))
      | FetchOutcome.thrown name msg =>
          uploadAttemptsGo oracle fileName fuel attempt
            (some (classifyUploadError name msg fileName))

/-- uploadFileWithRetry from r2.ts: up to MAX_RETRIES fetch attempts. -/
def uploadFileWithRetry (oracle : Nat → FetchOutcome) (fileName : String) :
    Except String Nat × Nat :=
  uploadAttemptsGo oracle fileName MAX_RETRIES 0 none

/-! ### Network request descriptors

Each fetch call inside a mutationFn is described by the request it issues:
its method, URL, and the explicit timeout attached through an AbortSignal
when the source provides one. -/

/-- Descriptor of a fetch call: method, URL and optional explicit timeout. -/
structure RequestSpec where
  method : String
  url : String
  timeoutMs : Option Nat
deriving DecidableEq

/-- The fetch call of useUpdateItem.mutationFn: a PATCH with JSON body and
no AbortSignal, hence no explicit timeout. -/
def updateItemRequest (data : UpdateItemData) : RequestSpec where
  method := "PATCH"
  url := "/api/claims/" ++ data.claimId ++ "/items/" ++ data.id
  timeoutMs := none

/-- The fetch call of useCreateClaim.mutationFn: a POST with JSON body and
no AbortSignal, hence no explicit timeout. -/
def createClaimRequest : RequestSpec where
  method := "POST"
  url := "/api/claims"
  timeoutMs := none

/-- The fetch call inside uploadFileWithRetry: a POST with
signal = AbortSignal.timeout(UPLOAD_TIMEOUT). -/
def uploadFetchRequest (url : String) : RequestSpec where
  method := "POST"
  url := url
  timeoutMs := some UPLOAD_TIMEOUT

/-! ### useRemoveAttachment (src/lib/r2.ts) -/

/-- Input of useRemoveAttachment (RemoveAttachmentData in r2.ts). -/
structure RemoveAttachmentData where
  claimId : String
  itemId : String
  attachmentId : String
deriving DecidableEq

/-- Context returned by useRemoveAttachment.onMutate. -/
structure RemoveAttachmentCtx where
  previousClaim : Option ClaimWithItems
  removedAttachment : Option Attachment
deriving DecidableEq

/-- useRemoveAttachment.onMutate: cancel outgoing queries, snapshot, look up
the attachment being removed inside the snapshot (for later cleanup), then
optimistically filter it out of the matching item. -/
def removeAttachmentOnMutate (data : RemoveAttachmentData)
    (cache : Option ClaimWithItems) :
    Option ClaimWithItems × RemoveAttachmentCtx × List Event :=
  let previousClaim := cache
  let item := previousClaim.bind
    (fun c => c.items.find? (fun i => i.id == data.itemId))
  let removedAttachment := item.bind
    (fun i => i.attachments.find? (fun a => a.id == data.attachmentId))
  let cache1 := setQueryDataWith
    (fun old =>
      match old with
      | none => none
      | some old =>
          some { old with
            items := old.items.map fun item =>
              if item.id = data.itemId then
                { item with
                  attachments := item.attachments.filter
                    (fun att => att.id != data.attachmentId) }
              else item })
    cache
  (cache1,
   { previousClaim := previousClaim, removedAttachment := removedAttachment },
   [Event.cancelQueries ["claims", data.claimId],
    Event.getQueryData ["claims", data.claimId],
    Event.setQueryData ["claims", data.claimId]])

/-- useRemoveAttachment.onError: restore the snapshot when one was
captured. -/
def removeAttachmentOnError (data : RemoveAttachmentData)
    (ctx : RemoveAttachmentCtx) (cache : Option ClaimWithItems) :
    Option ClaimWithItems × List Event :=
  match ctx.previousClaim with
  | some prev => (some prev, [Event.setQueryData ["claims", data.claimId]])
  | none => (cache, [])

/-- useRemoveAttachment.onSettled: revoke the removed attachment's object
URL when it is a blob: URL; runs on both the success and the error path. -/
def removeAttachmentOnSettled (ctx : RemoveAttachmentCtx) : List Event :=
  match ctx.removedAttachment with
  | some att =>
      if strStartsWith att.url "blob:" then [Event.revokeObjectURL att.url]
      else []
  | none => []

/-- Failed useRemoveAttachment invocation: onMutate runs, execute rejects,
onError runs, then onSettled runs. -/
def removeAttachmentSettleError (data : RemoveAttachmentData)
    (cache : Option ClaimWithItems) :
    Option ClaimWithItems × List Event :=
  let r1 := removeAttachmentOnMutate data cache
  let r2 := removeAttachmentOnError data r1.2.1 r1.1
  (r2.1, r1.2.2 ++ r2.2 ++ removeAttachmentOnSettled r1.2.1)

/-- Successful useRemoveAttachment invocation: onMutate runs, execute
resolves (the hook defines no onSuccess), then onSettled runs. -/
def removeAttachmentSettleSuccess (data : RemoveAttachmentData)
    (cache : Option ClaimWithItems) :
    Option ClaimWithItems × List Event :=
  let r1 := removeAttachmentOnMutate data cache
  (r1.1, r1.2.2 ++ removeAttachmentOnSettled r1.2.1)

/-- Predicate for a notification-sink error call in a trace. -/
def isNotifyError : Event → Bool
  | Event.notifyErrorCall _ => true
  | _ => false

/-- Ordering property of an event trace: every write of an optimistic value
to a key is preceded by a cancellation of in-flight reads for that key. -/
def cancelPrecedesSet (key : QueryKey) (tr : List Event) : Prop :=
  ∀ j, tr.get? j = some (Event.setQueryData key) →
    ∃ i, i < j ∧ tr.get? i = some (Event.cancelQueries key)

/-! ### Sample values used in concrete counterexamples and witnesses -/

/-- Sample create-claim input. -/
def sampleCreateInput : CreateClaimInput where
  title := "Roof damage"

/-- Sample server-returned claim (a real, confirmed claim record). -/
def sampleRealClaim : ClaimWithCount where
  id := "real-456"
  title := "Roof damage"
  description := none
  amount := none
  status := ClaimStatus.PENDING
  claimNumber := "CLM-2024-001"
  customer := none
  adjustorName := none
  adjustorPhone := none
  adjustorEmail := none
  claimantName := none
  claimantPhone := none
  claimantEmail := none
  claimantAddress := none
  createdAt := 5
  updatedAt := 5
  claimantId := "user-1"
  claimant := { id := "user-1", name := some "Ann", email := "ann@example.com" }
  countItems := 0

/-- Temporary claim of a first pending useCreateClaim invocation. -/
def tempClaimA : ClaimWithCount := mkTempClaim 1 { title := "A" }

/-- Temporary claim of a second, still-pending useCreateClaim invocation. -/
def tempClaimB : ClaimWithCount := mkTempClaim 2 { title := "B" }

/-- Context of the first invocation, owning tempClaimA only. -/
def ctxA : CreateClaimCtx where
  previousClaims := some []
  tempClaim := tempClaimA

/-- Sample item builder for the claim-detail cache. -/
def sampleItem (id : String) (ord : Int) (atts : List Attachment) :
    ItemWithAttachments where
  id := id
  claimId := "claim-1"
  title := "Roof"
  description := "d"
  order := ord
  createdAt := 0
  updatedAt := 0
  attachments := atts

/-- Sample claim-detail builder. -/
def sampleClaimDetail (items : List ItemWithAttachments) : ClaimWithItems where
  id := "claim-1"
  title := "Claim"
  description := none
  amount := none
  status := ClaimStatus.PENDING
  claimNumber := "CLM-2024-001"
  customer := none
  adjustorName := none
  adjustorPhone := none
  adjustorEmail := none
  claimantName := none
  claimantPhone := none
  claimantEmail := none
  claimantAddress := none
  createdAt := 0
  updatedAt := 0
  claimantId := "user-1"
  claimant := { id := "user-1", name := none, email := "ann@example.com" }
  items := items

/-- Sample update-item input. -/
def sampleUpdateData : UpdateItemData where
  claimId := "claim-1"
  id := "item-1"
  title := "New title"
  description := "new description"

/-- Sample create-item input. -/
def sampleCreateItemData : CreateItemData where
  claimId := "claim-1"
  title := "Roof damage"
  description := "d"
  order := some 0

/-- Sample server-returned item. -/
def sampleServerItem : ItemWithAttachments :=
  sampleItem "real-456" 0 []

/-- Temporary cache-shaped attachment of a first pending useAddAttachments
invocation. -/
def tempAttachA : Attachment where
  id := "temp-1-r1"
  itemId := "item-1"
  filename := "a.png"
  url := "blob:a.png"
  thumbnailUrl := none
  mimeType := "image/png"
  size := 1
  width := none
  height := none
  publicId := ""
  version := none
  format := none
  createdAt := 0
  updatedAt := 0

/-- Temporary cache-shaped attachment of a second, still-pending
useAddAttachments invocation. -/
def tempAttachB : Attachment where
  id := "temp-2-r2"
  itemId := "item-1"
  filename := "b.png"
  url := "blob:b.png"
  thumbnailUrl := none
  mimeType := "image/png"
  size := 2
  width := none
  height := none
  publicId := ""
  version := none
  format := none
  createdAt := 0
  updatedAt := 0

/-- Sample server-returned attachment. -/
def serverAttach : Attachment where
  id := "att-1"
  itemId := "item-1"
  filename := "a.png"
  url := "https://files.example.com/a.png"
  thumbnailUrl := none
  mimeType := "image/png"
  size := 1
  width := none
  height := none
  publicId := "claims/claim-1/item-1/1700000000000-ab.png"
  version := none
  format := some "png"
  createdAt := 1
  updatedAt := 1

/-- UI-shaped temporary attachment owned by the first invocation. -/
def uiTempA : UIAttachment where
  id := "temp-1-r1"
  name := "a.png"
  url := "blob:a.png"
  thumbnailUrl := none
  type := "image/png"
  size := 1
  width := none
  height := none
  publicId := ""
  format := none
  file := some { name := "a.png", type := "image/png", size := 1 }

/-- Context of the first useAddAttachments invocation, owning uiTempA only. -/
def addCtxA : AddAttachmentsCtx where
  previousClaim := some (sampleClaimDetail [sampleItem "item-1" 0 []])
  tempAttachments := [uiTempA]
  itemId := "item-1"

/-- Sample add-attachments input of the first invocation. -/
def addDataA : AddAttachmentsData where
  claimId := "claim-1"
  itemId := "item-1"
  files := [{ name := "a.png", type := "image/png", size := 1 }]

/-- Attachment with a blob: URL living in the cache (target of a
remove-attachment mutation). -/
def blobAttach : Attachment where
  id := "att-9"
  itemId := "item-1"
  filename := "p.png"
  url := "blob:p.png"
  thumbnailUrl := none
  mimeType := "image/png"
  size := 3
  width := none
  height := none
  publicId := ""
  version := none
  format := none
  createdAt := 0
  updatedAt := 0

/-- Sample remove-attachment input. -/
def removeDataA : RemoveAttachmentData where
  claimId := "claim-1"
  itemId := "item-1"
  attachmentId := "att-9"

/-- Sample reorder input: move item-2 to the front. -/
def reorderDataSample : ReorderItemsData where
  claimId := "claim-1"
  items := [{ id := "item-2", order := 0 }, { id := "item-1", order := 1 }]

/-- Fetch oracle that always answers with a 500 server error. -/
def always500 : Nat → FetchOutcome := fun _ => FetchOutcome.resp 500

/-- Fetch oracle that always answers 201 Created. -/
def always201 : Nat → FetchOutcome := fun _ => FetchOutcome.resp 201

/-! ### Theorems -/

/-- Helper: in the three-event trace cancel, read, write emitted by the
onMutate handlers, the write is preceded by the cancellation. -/
theorem cancelPrecedesSet_cgs (k : QueryKey) :
    cancelPrecedesSet k
      [Event.cancelQueries k, Event.getQueryData k, Event.setQueryData k] := by
  intro j hj
  match j with
  | 0 => simp [List.get?] at hj
  | 1 => simp [List.get?] at hj
  | 2 => exact ⟨0, by omega, rfl⟩
  | n + 3 => simp [List.get?] at hj

/-- Claim C3: in every optimistic-apply phase (the onMutate of
useCreateClaim, useUpdateItem and useAddAttachments) the operations happen
in the fixed order cancel in-flight reads, snapshot, optimistic write: no
optimistic write to the key precedes the cancellation of in-flight reads
for that key within the same onMutate. -/
theorem cancel_precedes_optimistic_set :
    (∀ now data cache,
      cancelPrecedesSet ["claims"] (createClaimOnMutate now data cache).2.2) ∧
    (∀ data cache,
      cancelPrecedesSet ["claims", data.claimId]
        (updateItemOnMutate data cache).2.2) ∧
    (∀ now rand data cache,
      cancelPrecedesSet ["claims", data.claimId]
        (addAttachmentsOnMutate now rand data cache).2.2) :=
  ⟨fun _ _ _ => cancelPrecedesSet_cgs _,
   fun _ _ => cancelPrecedesSet_cgs _,
   fun _ _ _ _ => cancelPrecedesSet_cgs _⟩

/-- Witness for C3: in the concrete trace of useCreateClaim.onMutate the
write at index 2 is preceded by a cancellation. -/
theorem cancel_precedes_optimistic_set_witness :
    ∃ i, i < 2 ∧
      (createClaimOnMutate 0 sampleCreateInput none).2.2.get? i
        = some (Event.cancelQueries ["claims"]) :=
  cancel_precedes_optimistic_set.1 0 sampleCreateInput none 2 (by decide)

/-- Claim C1 (amended): for every failed mutation the onError rollback is a
full replacement with the onMutate snapshot whenever a value was cached for
the key before onMutate; useUpdateItem also restores the no-value state,
while useCreateClaim with an empty cache skips the rollback (see the
counterexample). -/
theorem rollback_restores_snapshot :
    (∀ now data (prior : List ClaimWithCount),
      (createClaimSettleError now data (some prior)).1 = some prior) ∧
    (∀ data (cache : Option ClaimWithItems),
      (updateItemSettleError data cache).1 = cache) := by
  constructor
  · intro now data prior
    rfl
  · intro data cache
    cases cache <;> rfl

/-- Counterexample for C1: when nothing was cached at ["claims"] before the
mutation, a failed useCreateClaim leaves its temporary claim in the cache
instead of restoring the empty state. -/
theorem create_claim_rollback_missing_cache_cex :
    (createClaimSettleError 0 sampleCreateInput none).1 ≠ none ∧
    (createClaimSettleError 0 sampleCreateInput none).1
      = some [mkTempClaim 0 sampleCreateInput] :=
  ⟨by decide, rfl⟩

/-- Claim C8 (amended): only the attachment uploads inside uploadFileWithRetry
are bounded by an explicit timeout (60 seconds via AbortSignal.timeout); the
fetch calls of useUpdateItem and useCreateClaim carry no explicit timeout. -/
theorem upload_timeout_only :
    (∀ url, (uploadFetchRequest url).timeoutMs = some UPLOAD_TIMEOUT) ∧
    (∀ data, (updateItemRequest data).timeoutMs = none) ∧
    createClaimRequest.timeoutMs = none :=
  ⟨fun _ => rfl, fun _ => rfl, rfl⟩

/-- Counterexample for C8: the network call of useUpdateItem.mutationFn has
no explicit timeout at all. -/
theorem update_item_no_timeout_cex :
    ¬ ∃ t, (updateItemRequest sampleUpdateData).timeoutMs = some t := by
  intro h
  obtain ⟨t, ht⟩ := h
  exact Option.noConfusion ht

/-- Claim C5 (amended): the onError path of the hooks performs the rollback
(and, for useAddAttachments, object-URL cleanup) but never invokes any
notification-sink call; user-visible failure notifications, where they
exist, come from call-site wrappers outside the mutation hooks. -/
theorem on_error_never_notifies :
    (∀ data (cache : Option ClaimWithItems),
      (updateItemSettleError data cache).2.countP isNotifyError = 0) ∧
    (∀ now rand data (cache : Option ClaimWithItems),
      (addAttachmentsSettleError now rand data cache).2.countP isNotifyError
        = 0) := by
  constructor
  · intro data cache
    cases cache <;>
      simp [updateItemSettleError, updateItemOnMutate, updateItemOnError,
        setQueryDataWith, isNotifyError]
  · intro now rand data cache
    cases cache <;>
      simp [addAttachmentsSettleError, addAttachmentsOnMutate,
        addAttachmentsOnError, setQueryDataWith, isNotifyError,
        List.countP_append, List.countP_map, Function.comp]

/-- Counterexample for C5: a concrete failed useUpdateItem mutation settles
with zero notification-sink error calls in its whole trace. -/
theorem failed_update_item_silent_cex :
    ¬ 1 ≤ ((updateItemSettleError sampleUpdateData
        (some (sampleClaimDetail [sampleItem "item-1" 0 []]))).2.countP
          isNotifyError) := by
  decide

/-- Helper: the retry loop issues at most used + fuel fetch attempts in
total, and settles into an error only after consuming all its fuel. -/
theorem uploadAttemptsGo_spec (oracle : Nat → FetchOutcome)
    (fileName : String) :
    ∀ fuel used lastError,
      (uploadAttemptsGo oracle fileName fuel used lastError).2 ≤ used + fuel ∧
      (∀ e n,
        uploadAttemptsGo oracle fileName fuel used lastError
          = (Except.error e, n) → n = used + fuel) := by
  intro fuel
  induction fuel with
  | zero =>
      intro used lastError
      constructor
      · simp [uploadAttemptsGo]
      · intro e n h
        simp [uploadAttemptsGo] at h
        omega
  | succ fuel ih =>
      intro used lastError
      constructor
      · simp only [uploadAttemptsGo]
        cases oracle (used + 1) with
        | resp status =>
            by_cases hc :
              (respOk status ||
                (decide (400 ≤ status) && decide (status < 500))) = true
            · simp [hc]
            · simp [hc]
              have := (ih (used + 1)
                (some ("Server error (" ++ toString status ++ ")"))).1
              omega
        | thrown name msg =>
            exact le_trans
              (ih (used + 1) (some (classifyUploadError name msg fileName))).1
              (by omega)
      · intro e n h
        simp only [uploadAttemptsGo] at h
        cases ho : oracle (used + 1) with
        | resp status =>
            rw [ho] at h
            by_cases hc :
              (respOk status ||
                (decide (400 ≤ status) && decide (status < 500))) = true
            · simp [hc] at h
            · simp [hc] at h
              have := (ih (used + 1)
                (some ("Server error (" ++ toString status ++ ")"))).2 e n h
              omega
        | thrown name msg =>
            rw [ho] at h
            have := (ih (used + 1)
              (some (classifyUploadError name msg fileName))).2 e n h
            omega

/-- Claim C7 (amended): the executor is not single-attempt — the attachment
transport wrapper uploadFileWithRetry issues up to MAX_RETRIES = 3 fetch
attempts per request: a response that is ok or a client error (4xx) on the
first attempt settles immediately after exactly one attempt, while server
errors and thrown network errors are retried, and a settled failure has
consumed all three attempts before the mutation falls into rollback. -/
theorem upload_retry_bounds :
    (∀ oracle fileName,
      (uploadFileWithRetry oracle fileName).2 ≤ MAX_RETRIES) ∧
    (∀ oracle fileName status, oracle 1 = FetchOutcome.resp status →
      (respOk status || (decide (400 ≤ status) && decide (status < 500)))
        = true →
      uploadFileWithRetry oracle fileName = (Except.ok status, 1)) ∧
    (∀ oracle fileName e n,
      uploadFileWithRetry oracle fileName = (Except.error e, n) →
        n = MAX_RETRIES) := by
  refine ⟨?_, ?_, ?_⟩
  · intro oracle fileName
    exact (uploadAttemptsGo_spec oracle fileName MAX_RETRIES 0 none).1
  · intro oracle fileName status h hc
    show uploadAttemptsGo oracle fileName MAX_RETRIES 0 none
      = (Except.ok status, 1)
    simp [MAX_RETRIES, uploadAttemptsGo, h, hc]
  · intro oracle fileName e n h
    exact (uploadAttemptsGo_spec oracle fileName MAX_RETRIES 0 none).2 e n h

/-- Witness for C7: a first-attempt 201 response settles after exactly one
attempt. -/
theorem upload_retry_bounds_witness :
    uploadFileWithRetry always201 "a.png" = (Except.ok 201, 1) :=
  upload_retry_bounds.2.1 always201 "a.png" 201 rfl (by decide)

/-- Counterexample for C7: with a server answering 500 on every attempt, a
single useAddAttachments upload issues three fetch attempts, not at most
one. -/
theorem upload_three_attempts_cex :
    (uploadFileWithRetry always500 "a.png").2 = 3 ∧
    ¬ (uploadFileWithRetry always500 "a.png").2 ≤ 1 := by
  constructor
  · rfl
  · decide

/-- Claim C6 (amended): useCreateItem has no optimistic phase at all —
nothing is written to the cache and no temporary entity is synthesized
before execute runs; only onSuccess inserts the server-returned item, at the
head of the cached items array, leaving the tail untouched, and it
introduces no temp- entries. -/
theorem create_item_no_optimistic_spec :
    (∀ data cache, createItemPreExecute data cache = (cache, [])) ∧
    (∀ newItem (data : CreateItemData) (old : ClaimWithItems),
      ∃ res, (createItemOnSuccess newItem data (some old)).1 = some res ∧
        res.items = newItem :: old.items ∧
        (strStartsWith newItem.id "temp-" = false →
          old.items.countP (fun it => strStartsWith it.id "temp-") = 0 →
          res.items.countP (fun it => strStartsWith it.id "temp-") = 0)) := by
  constructor
  · intro data cache
    rfl
  · intro newItem data old
    refine ⟨_, rfl, rfl, ?_⟩
    intro hnew hold
    simp [List.countP_cons, hnew, hold]

/-- Witness for C6: inserting a concrete server item into a concrete cache
leaves zero temp- entries. -/
theorem create_item_no_optimistic_spec_witness :
    ∃ res, (createItemOnSuccess sampleServerItem sampleCreateItemData
        (some (sampleClaimDetail [sampleItem "item-1" 0 []]))).1 = some res ∧
      res.items.countP (fun it => strStartsWith it.id "temp-") = 0 := by
  obtain ⟨res, h1, _, h3⟩ :=
    create_item_no_optimistic_spec.2 sampleServerItem sampleCreateItemData
      (sampleClaimDetail [sampleItem "item-1" 0 []])
  exact ⟨res, h1, h3 (by decide) (by decide)⟩

/-- Counterexample for C6: after the pre-execute phase of useCreateItem the
cache is unchanged and contains no temp--prefixed item at all, so no
temporary entity was inserted at the head before execute. -/
theorem create_item_no_temp_insert_cex :
    (createItemPreExecute sampleCreateItemData
      (some (sampleClaimDetail [sampleItem "item-1" 0 []]))).1
        = some (sampleClaimDetail [sampleItem "item-1" 0 []]) ∧
    ((sampleClaimDetail [sampleItem "item-1" 0 []]).items.countP
      (fun it => strStartsWith it.id "temp-")) = 0 :=
  ⟨rfl, by decide⟩

/-- Helper: replacing the entries with a given id inside a list that has no
entry with that id and no copy of the replacement leaves the replacement
absent. -/
theorem count_replace_zero (tid : String) (nc : ClaimWithCount) :
    ∀ l : List ClaimWithCount,
      l.countP (fun c => c.id == tid) = 0 →
      (∀ c ∈ l, c ≠ nc) →
      ((l.map fun c => if c.id = tid then nc else c).count nc = 0) := by
  intro l
  induction l with
  | nil => intro _ _; rfl
  | cons a l ih =>
      intro h0 hne
      rw [List.countP_cons] at h0
      by_cases ha : a.id = tid
      · simp [ha] at h0
      · simp only [List.map_cons, List.count_cons]
        have hane : a ≠ nc := hne a (List.mem_cons_self a l)
        have h0' : l.countP (fun c => c.id == tid) = 0 := by
          simpa [ha] using h0
        have hrec := ih h0' (fun c hc => hne c (List.mem_cons_of_mem a hc))
        simp [ha, hrec, hane, Ne.symm hane]

/-- Helper: replacing the unique entry with a given id by a record that has
no other copy in the list yields exactly one copy of that record. -/
theorem count_replace_one (tid : String) (nc : ClaimWithCount) :
    ∀ l : List ClaimWithCount,
      l.countP (fun c => c.id == tid) = 1 →
      (∀ c ∈ l, c ≠ nc) →
      ((l.map fun c => if c.id = tid then nc else c).count nc = 1) := by
  intro l
  induction l with
  | nil => intro h _; simp at h
  | cons a l ih =>
      intro h1 hne
      rw [List.countP_cons] at h1
      by_cases ha : a.id = tid
      · have h0 : l.countP (fun c => c.id == tid) = 0 := by
          simpa [ha] using h1
        have hz := count_replace_zero tid nc l h0
          (fun c hc => hne c (List.mem_cons_of_mem a hc))
        simp [ha, hz, List.count_cons]
      · have hane : a ≠ nc := hne a (List.mem_cons_self a l)
        have h1' : l.countP (fun c => c.id == tid) = 1 := by
          simpa [ha] using h1
        have hrec := ih h1' (fun c hc => hne c (List.mem_cons_of_mem a hc))
        simp [ha, hrec, List.count_cons, hane, Ne.symm hane]

/-- Helper: after the replacement no temp--prefixed identifier remains,
provided the only temp--prefixed entries carried the replaced id and the
replacement's id is not temp--prefixed. -/
theorem no_temp_after_replace (tid : String) (nc : ClaimWithCount)
    (l : List ClaimWithCount)
    (honly : ∀ c ∈ l, strStartsWith c.id "temp-" = true → c.id = tid)
    (hnc : strStartsWith nc.id "temp-" = false) :
    ∀ c ∈ (l.map fun c => if c.id = tid then nc else c),
      strStartsWith c.id "temp-" = false := by
  intro c hc
  rw [List.mem_map] at hc
  obtain ⟨a, ha, rfl⟩ := hc
  by_cases h : a.id = tid
  · simp [h, hnc]
  · simp only [h, if_false]
    cases hst : strStartsWith a.id "temp-"
    · rfl
    · exact absurd (honly a ha hst) h

/-- Claim C4 (amended): after a successful useCreateClaim whose collection,
at onSuccess time, contains the mutation's own temporary claim exactly once,
no other temp--prefixed entry, and no copy of the server-returned claim, the
reconciled collection contains the server claim exactly once and no entry
with a temp--prefixed identifier.  (Without these provisos the property
fails: a concurrent pending mutation's temp entry survives, see the
counterexample.) -/
theorem create_claim_exactly_once (old : List ClaimWithCount)
    (newClaim : ClaimWithCount) (ctx : CreateClaimCtx)
    (hcount : old.countP (fun c => c.id == ctx.tempClaim.id) = 1)
    (hfresh : ∀ c ∈ old, c ≠ newClaim)
    (honly : ∀ c ∈ old, strStartsWith c.id "temp-" = true →
      c.id = ctx.tempClaim.id)
    (hreal : strStartsWith newClaim.id "temp-" = false) :
    ∃ res, (createClaimOnSuccess newClaim ctx (some old)).1 = some res ∧
      res.count newClaim = 1 ∧
      ∀ c ∈ res, strStartsWith c.id "temp-" = false := by
  refine ⟨_, rfl, ?_, ?_⟩
  · exact count_replace_one ctx.tempClaim.id newClaim old hcount hfresh
  · exact no_temp_after_replace ctx.tempClaim.id newClaim old honly hreal

/-- Witness for C4: reconciling a collection holding exactly the temporary
claim leaves the server claim exactly once and zero temp- entries. -/
theorem create_claim_exactly_once_witness :
    ∃ res, (createClaimOnSuccess sampleRealClaim ctxA
        (some [tempClaimA])).1 = some res ∧
      res.count sampleRealClaim = 1 ∧
      ∀ c ∈ res, strStartsWith c.id "temp-" = false :=
  create_claim_exactly_once [tempClaimA] sampleRealClaim ctxA
    (by decide) (by decide) (by decide) (by decide)

/-- Counterexample for C4: with a second invocation's temporary claim also
in the collection, onSuccess of the first leaves that temp- entry behind, so
the collection does not contain zero temp--prefixed entities. -/
theorem create_claim_other_temp_remains_cex :
    ∃ res, (createClaimOnSuccess sampleRealClaim ctxA
        (some [tempClaimA, tempClaimB])).1 = some res ∧
      tempClaimB ∈ res ∧
      res.countP (fun c => strStartsWith c.id "temp-") = 1 :=
  ⟨_, rfl, by decide, by decide⟩

/-- Helper: every pair of the zip of a mapped list with the original list
is of the form (f a, a) with a in the original list. -/
theorem zip_map_pairs {α : Type} (f : α → α) :
    ∀ (l : List α) p, p ∈ (l.map f).zip l → p.1 = f p.2 ∧ p.2 ∈ l := by
  intro l
  induction l with
  | nil => intro p hp; simp at hp
  | cons a l ih =>
      intro p hp
      simp only [List.map_cons, List.zip_cons_cons, List.mem_cons] at hp
      rcases hp with rfl | hp
      · exact ⟨rfl, List.mem_cons_self a l⟩
      · obtain ⟨h1, h2⟩ := ih p hp
        exact ⟨h1, List.mem_cons_of_mem a h2⟩

/-- Claim C2 (amended): the onSuccess of useAddAttachments leaves every item
other than the target untouched (same position and identity); on the target
item it keeps exactly the attachments whose id does not carry the temp-
marker, in order, and appends the server results — so every temp--prefixed
attachment on that item is dropped, including those created by other
still-pending invocations (the context identifies nothing during the cache
update), not only the invocation's own; see the counterexample. -/
theorem add_attachments_reconcile_spec (result : List Attachment)
    (vars : AddAttachmentsData) (ctx : AddAttachmentsCtx)
    (old : ClaimWithItems) :
    ∃ res, (addAttachmentsOnSuccess result vars ctx (some old)).1 = some res ∧
      res.items.length = old.items.length ∧
      ∀ p ∈ res.items.zip old.items,
        (p.2.id ≠ vars.itemId → p.1 = p.2) ∧
        (p.2.id = vars.itemId →
          p.1.attachments
            = (p.2.attachments.filter
                (fun att => !(strStartsWith att.id "temp-"))) ++ result ∧
          ∀ att ∈ p.2.attachments, strStartsWith att.id "temp-" = true →
            att ∉ result → att ∉ p.1.attachments) := by
  refine ⟨_, rfl, by simp, ?_⟩
  intro p hp
  obtain ⟨hfst, -⟩ := zip_map_pairs _ old.items p (by simpa using hp)
  constructor
  · intro hne
    rw [hfst]
    simp [hne]
  · intro heq
    rw [hfst]
    simp only [heq, if_true]
    refine ⟨by trivial, ?_⟩
    intro att _ htemp hnotres hmem
    simp only [List.mem_append, List.mem_filter] at hmem
    rcases hmem with ⟨-, hf⟩ | hr
    · rw [htemp] at hf
      simp at hf
    · exact hnotres hr

/-- Witness for C2 (amended): the reconciliation result exists and preserves
the item count on a concrete cache. -/
theorem add_attachments_reconcile_witness :
    ∃ res, (addAttachmentsOnSuccess [serverAttach] addDataA addCtxA
        (some (sampleClaimDetail
          [sampleItem "item-1" 0 [tempAttachA]]))).1 = some res ∧
      res.items.length = 1 := by
  obtain ⟨res, h1, h2, -⟩ :=
    add_attachments_reconcile_spec [serverAttach] addDataA addCtxA
      (sampleClaimDetail [sampleItem "item-1" 0 [tempAttachA]])
  exact ⟨res, h1, h2⟩

/-- Counterexample for C2: the first invocation's onSuccess also removes the
second, still-pending invocation's temporary attachment (an entry it does
not own — its id is not among the context's temp attachments). -/
theorem add_attachments_removes_other_temp_cex :
    (addAttachmentsOnSuccess [serverAttach] addDataA addCtxA
        (some (sampleClaimDetail
          [sampleItem "item-1" 0 [tempAttachA, tempAttachB]]))).1
      = some (sampleClaimDetail [sampleItem "item-1" 0 [serverAttach]]) ∧
    tempAttachB.id ∉ addCtxA.tempAttachments.map (fun a => a.id) ∧
    tempAttachB ∈ (sampleItem "item-1" 0 [tempAttachA, tempAttachB]).attachments ∧
    tempAttachB ∉ (sampleItem "item-1" 0 [serverAttach]).attachments := by
  refine ⟨by decide, by decide, by decide, by decide⟩

/-- Claim C9: the optimistic update of useReorderItems permutes the cached
items (it equals, up to order of the list, the old items with only their
order fields rewritten), the result is sorted ascending by order, the
multiset of ids is preserved, every resulting item is an old item with only
its order rewritten, and the rewritten order is the input's order for ids in
the payload (the value of the JavaScript Map built from the payload) and the
previous order for ids absent from it. -/
theorem reorder_items_optimistic_spec (data : ReorderItemsData)
    (old : ClaimWithItems) :
    ∃ res, (reorderItemsOnMutate data (some old)).1 = some res ∧
      res.items.Perm (old.items.map (reorderUpdate data.items)) ∧
      res.items.Pairwise (fun a b => a.order ≤ b.order) ∧
      (res.items.map (fun it => it.id)).Perm
        (old.items.map (fun it => it.id)) ∧
      (∀ it ∈ res.items, ∃ it0 ∈ old.items,
        it = reorderUpdate data.items it0) ∧
      (∀ it0 : ItemWithAttachments,
        (orderMapGet data.items it0.id = none →
          (reorderUpdate data.items it0).order = it0.order) ∧
        (∀ o, orderMapGet data.items it0.id = some o →
          (reorderUpdate data.items it0).order = o)) := by
  have hperm :
      (List.insertionSort (fun a b => a.order ≤ b.order)
        (old.items.map (reorderUpdate data.items))).Perm
      (old.items.map (reorderUpdate data.items)) :=
    List.perm_insertionSort _ _
  refine ⟨_, rfl, hperm, ?_, ?_, ?_, ?_⟩
  · exact List.sorted_insertionSort _ _
  · have hids := hperm.map (fun it => it.id)
    rw [List.map_map] at hids
    have hcomp :
        ((fun it : ItemWithAttachments => it.id) ∘ reorderUpdate data.items)
          = fun it : ItemWithAttachments => it.id := funext fun _ => rfl
    rwa [hcomp] at hids
  · intro it hit
    have hmem := hperm.mem_iff.mp hit
    rw [List.mem_map] at hmem
    obtain ⟨a, ha, heq⟩ := hmem
    exact ⟨a, ha, heq.symm⟩
  · intro it0
    constructor
    · intro h
      simp [reorderUpdate, h]
    · intro o h
      simp [reorderUpdate, h]

/-- Witness for C9: reordering a concrete two-item claim yields a cache
value sorted ascending by order whose ids are a permutation of the old
ones. -/
theorem reorder_items_optimistic_spec_witness :
    ∃ res, (reorderItemsOnMutate reorderDataSample
        (some (sampleClaimDetail
          [sampleItem "item-1" 0 [], sampleItem "item-2" 1 []]))).1
      = some res ∧
      res.items.Pairwise (fun a b => a.order ≤ b.order) := by
  obtain ⟨res, h1, -, h3, -⟩ :=
    reorder_items_optimistic_spec reorderDataSample
      (sampleClaimDetail [sampleItem "item-1" 0 [], sampleItem "item-2" 1 []])
  exact ⟨res, h1, h3⟩

/-- Claim C10: when the target attachment of useRemoveAttachment carries a
blob: URL, that URL is revoked on settlement on both the success and the
error path; on the error path this happens even though the rollback has just
restored the snapshot that still contains the attachment referencing that
URL. -/
theorem remove_attachment_revokes_on_settle (data : RemoveAttachmentData)
    (claim : ClaimWithItems) (item : ItemWithAttachments) (att : Attachment)
    (hitem : claim.items.find? (fun i => i.id == data.itemId) = some item)
    (hatt : item.attachments.find?
      (fun a => a.id == data.attachmentId) = some att)
    (hblob : strStartsWith att.url "blob:" = true) :
    Event.revokeObjectURL att.url
      ∈ (removeAttachmentSettleError data (some claim)).2 ∧
    Event.revokeObjectURL att.url
      ∈ (removeAttachmentSettleSuccess data (some claim)).2 ∧
    (removeAttachmentSettleError data (some claim)).1 = some claim := by
  simp [removeAttachmentSettleError, removeAttachmentSettleSuccess,
    removeAttachmentOnMutate, removeAttachmentOnError,
    removeAttachmentOnSettled, setQueryDataWith, hitem, hatt, hblob,
    Option.bind]

/-- Witness for C10: removing a concrete blob attachment revokes its URL on
both paths while the error path restores the snapshot. -/
theorem remove_attachment_revokes_on_settle_witness :
    Event.revokeObjectURL blobAttach.url
      ∈ (removeAttachmentSettleError removeDataA
          (some (sampleClaimDetail [sampleItem "item-1" 0 [blobAttach]]))).2 ∧
    Event.revokeObjectURL blobAttach.url
      ∈ (removeAttachmentSettleSuccess removeDataA
          (some (sampleClaimDetail [sampleItem "item-1" 0 [blobAttach]]))).2 ∧
    (removeAttachmentSettleError removeDataA
        (some (sampleClaimDetail [sampleItem "item-1" 0 [blobAttach]]))).1
      = some (sampleClaimDetail [sampleItem "item-1" 0 [blobAttach]]) :=
  remove_attachment_revokes_on_settle removeDataA
    (sampleClaimDetail [sampleItem "item-1" 0 [blobAttach]])
    (sampleItem "item-1" 0 [blobAttach]) blobAttach
    (by decide) (by decide) (by decide)

end ClaimsApp
